import Mathlib

/-!
# Verification of the CMAF muxer and NAL extractor

Shallow embedding of `src/helpers/cmaf_muxer.rs` and
`src/helpers/nal_extractor.rs` from the `video-toolbox-sys` repository.

Bytes are modelled as `List Nat` (each element a value `0 ≤ b < 256` by
construction of the serializers).  Rust machine integers are modelled as
`Nat`/`Int`; wherever Rust truncates (`as u32`, `as i32`, wrapping `i64`
arithmetic in release builds) the model applies the corresponding
`% 2^w` reduction explicitly.
-/

/-! ## Byte-level helpers -/

/-- Big-endian bytes of a `u16` value (Rust `u16::to_be_bytes`); the value is
reduced mod `2^16`, matching an `as u16` cast. -/
def u16be (n : Nat) : List Nat :=
  [n / 2^8 % 256, n % 256]

/-- Big-endian bytes of a `u32` value (Rust `u32::to_be_bytes`); the value is
reduced mod `2^32`, matching an `as u32` cast. -/
def u32be (n : Nat) : List Nat :=
  [n / 2^24 % 256, n / 2^16 % 256, n / 2^8 % 256, n % 256]

/-- Big-endian bytes of a `u64` value (Rust `u64::to_be_bytes`). -/
def u64be (n : Nat) : List Nat :=
  [n / 2^56 % 256, n / 2^48 % 256, n / 2^40 % 256, n / 2^32 % 256,
   n / 2^24 % 256, n / 2^16 % 256, n / 2^8 % 256, n % 256]

/-- The `u64` bit pattern of an `i64` value (Rust `as u64` on an `i64`):
the low 64 bits, i.e. the value mod `2^64`. -/
def u64pat (i : Int) : Nat :=
  (Int.emod i (2^64)).toNat

/-- The `u32` bit pattern of the low 32 bits of an integer (Rust `as i32`
truncation followed by `i32::to_be_bytes`, which serializes exactly this
bit pattern). -/
def u32pat (i : Int) : Nat :=
  (Int.emod i (2^32)).toNat

/-- Wrapping 64-bit signed interpretation of an integer: the result of
`i64` arithmetic in a Rust release build. -/
def wrap64 (i : Int) : Int :=
  Int.emod (i + 2^63) (2^64) - 2^63

/-- Big-endian numeric value of a byte list. -/
def beVal (bs : List Nat) : Nat :=
  bs.foldl (fun a b => a * 256 + b) 0

/-- The `u32` stored big-endian at offset `i` of a byte buffer. -/
def readU32At (bs : List Nat) (i : Nat) : Nat :=
  beVal ((bs.drop i).take 4)

/-- ASCII bytes of a tag / string literal (e.g. the four-character box codes). -/
def tagBytes (s : String) : List Nat :=
  s.toList.map (fun c => c.toNat)

/-! ## NAL extractor (`src/helpers/nal_extractor.rs`) -/

/- H.264 NAL unit type codes (module `nal_unit_type` in
`src/cm_sample_buffer.rs`). -/
namespace nal_unit_type

def NON_IDR_SLICE : Nat := 1
def IDR_SLICE : Nat := 5
def SEI : Nat := 6
def SPS : Nat := 7
def PPS : Nat := 8

end nal_unit_type

/-- Error codes of NAL extraction (`NalError` in `nal_extractor.rs`).
`DataPointerFailed`/`ParameterSetFailed` carry an `OSStatus` code. -/
inductive NalError where
  | NoDataBuffer : NalError
  | DataPointerFailed : Int → NalError
  | NoFormatDescription : NalError
  | ParameterSetFailed : Int → NalError
  | InvalidNalLength : NalError
  | BufferTooSmall : NalError
deriving DecidableEq, Repr

/-- A single H.264 NAL unit (`NalUnit` in `nal_extractor.rs`): raw payload
bytes and the type tag taken from the low 5 bits of the first payload byte. -/
structure NalUnit where
  data : List Nat
  nal_type : Nat
deriving DecidableEq, Repr

/-- `NalUnit::is_idr`. -/
def NalUnit.is_idr (n : NalUnit) : Bool :=
  n.nal_type == nal_unit_type.IDR_SLICE

/-- `NalUnit::is_slice`: IDR or non-IDR coded slice. -/
def NalUnit.is_slice (n : NalUnit) : Bool :=
  n.nal_type == nal_unit_type.IDR_SLICE || n.nal_type == nal_unit_type.NON_IDR_SLICE

/-- Result of `NalExtractor::parse_avcc_data`.  `panic` models an
out-of-bounds slice index aborting the process (Rust panic), which the
source hits when it classifies the first byte of an empty NAL payload. -/
inductive ParseOutcome where
  | panic : ParseOutcome
  | err : NalError → ParseOutcome
  | ok : List NalUnit → ParseOutcome
deriving DecidableEq, Repr

/-- Big-endian read of `k` bytes at `offset` (the `u32::from_be_bytes` /
`u16::from_be_bytes` / single-byte reads in `parse_avcc_data`). -/
def readBE (data : List Nat) (offset k : Nat) : Nat :=
  beVal ((data.drop offset).take k)

/-- The `while offset + nal_length_size <= total_length` loop of
`NalExtractor::parse_avcc_data` (lines 330-373 of `nal_extractor.rs`):
read a big-endian length field of width `nls` (4, 2 or 1; anything else is
`InvalidNalLength`), check the declared length against the remaining buffer
(else `BufferTooSmall`), then slice the payload and classify
`nal_data[0] & 0x1F` — an out-of-bounds panic when the declared length is 0. -/
def parseLoop (data : List Nat) (nls : Nat) (offset : Nat) : ParseOutcome :=
  if hcond : offset + nls ≤ data.length then
    if hv : nls = 4 ∨ nls = 2 ∨ nls = 1 then
      let len := readBE data offset nls
      let offset2 := offset + nls
      if data.length < offset2 + len then
        .err .BufferTooSmall
      else if len = 0 then
        .panic
      else
        match parseLoop data nls (offset2 + len) with
        | .ok rest =>
            .ok ({ data := (data.drop offset2).take len,
                   nal_type := (data.getD offset2 0) % 32 } :: rest)
        | other => other
    else
      .err .InvalidNalLength
  else
    .ok []
termination_by data.length - offset
decreasing_by
  rcases hv with h | h | h <;> omega

/-- `NalExtractor::parse_avcc_data` entry point (offset starts at 0). -/
def parse_avcc_data (data : List Nat) (nls : Nat) : ParseOutcome :=
  parseLoop data nls 0

/-- Spec-side well-formedness of an AVCC buffer from a given offset: every
length field reachable by the parse is non-zero and fits in the remaining
buffer (and the length-field width is one of the supported 4/2/1). -/
def wellFormedFrom (data : List Nat) (nls : Nat) (offset : Nat) : Bool :=
  if hv : nls = 4 ∨ nls = 2 ∨ nls = 1 then
    if hcond : offset + nls ≤ data.length then
      (readBE data offset nls != 0) &&
      decide (offset + nls + readBE data offset nls ≤ data.length) &&
      wellFormedFrom data nls (offset + nls + readBE data offset nls)
    else
      true
  else
    decide (data.length < offset + nls)
termination_by data.length - offset
decreasing_by
  rcases hv with h | h | h <;> omega

/-! ## CMAF muxer (`src/helpers/cmaf_muxer.rs`) -/

/-- `CmafConfig`: target fragment duration (ms) and timescale, both `u32`. -/
structure CmafConfig where
  fragment_duration_ms : Nat
  timescale : Nat
deriving DecidableEq, Repr

/-- `PendingFrame`: a frame accumulated in the open fragment.
`composition_offset` holds the 32-bit pattern produced by
`(pts - dts) as i32` (serialized verbatim by `i32::to_be_bytes`). -/
structure PendingFrame where
  data : List Nat
  duration : Nat
  is_sync : Bool
  composition_offset : Nat
deriving DecidableEq, Repr

/-- The `CmafMuxer` state.  `sequence_number` is a `u32` in the source; it is
tracked as an unbounded `Nat` here and reduced mod `2^32` at the single point
where it is serialized, which matches release-build wrapping semantics. -/
structure CmafMuxer where
  config : CmafConfig
  initialized : Bool
  width : Nat
  height : Nat
  sps : List Nat
  pps : List Nat
  pending_frames : List PendingFrame
  sequence_number : Nat
  fragment_base_dts : Int
  last_dts : Int
  track_id : Nat
deriving DecidableEq, Repr

namespace CmafMuxer

/-- `CmafMuxer::new`. -/
def new (config : CmafConfig) : CmafMuxer where
  config := config
  initialized := false
  width := 0
  height := 0
  sps := []
  pps := []
  pending_frames := []
  sequence_number := 1
  fragment_base_dts := 0
  last_dts := 0
  track_id := 1

/-- `CmafMuxer::write_ftyp`. -/
def write_ftyp : List Nat :=
  let brands := [tagBytes "isom", tagBytes "iso6", tagBytes "cmfc",
                 tagBytes "cmfv", tagBytes "avc1", tagBytes "mp41"]
  let size := 8 + 4 + 4 + brands.length * 4
  u32be size ++ tagBytes "ftyp" ++ tagBytes "isom" ++ u32be 0 ++ brands.flatten

/-- `CmafMuxer::write_styp`. -/
def write_styp : List Nat :=
  let brands := [tagBytes "msdh", tagBytes "msix", tagBytes "cmfc",
                 tagBytes "cmfv"]
  let size := 8 + 4 + 4 + brands.length * 4
  u32be size ++ tagBytes "styp" ++ tagBytes "cmfv" ++ u32be 0 ++ brands.flatten

/-- The identity matrix written by `write_mvhd` and `write_tkhd`. -/
def matrixBytes : List Nat :=
  ([0x00010000, 0, 0, 0, 0x00010000, 0, 0, 0, 0x40000000] : List Nat).flatMap u32be

/-- `CmafMuxer::write_mvhd`. -/
def write_mvhd (m : CmafMuxer) : List Nat :=
  let content :=
    [0] ++ [0, 0, 0]
    ++ u32be 0 ++ u32be 0 ++ u32be m.config.timescale ++ u32be 0
    ++ u32be 0x00010000 ++ u16be 0x0100
    ++ List.replicate 2 0 ++ List.replicate 8 0
    ++ matrixBytes
    ++ List.replicate 24 0 ++ u32be 2
  u32be (8 + content.length) ++ tagBytes "mvhd" ++ content

/-- `CmafMuxer::write_tkhd`. -/
def write_tkhd (m : CmafMuxer) : List Nat :=
  let content :=
    [0] ++ [0, 0, 3]
    ++ u32be 0 ++ u32be 0 ++ u32be m.track_id ++ u32be 0 ++ u32be 0
    ++ List.replicate 8 0
    ++ u16be 0 ++ u16be 0 ++ u16be 0 ++ u16be 0
    ++ matrixBytes
    ++ u32be (m.width * 2^16) ++ u32be (m.height * 2^16)
  u32be (8 + content.length) ++ tagBytes "tkhd" ++ content

/-- `CmafMuxer::write_mdhd`. -/
def write_mdhd (m : CmafMuxer) : List Nat :=
  let content :=
    [0] ++ [0, 0, 0]
    ++ u32be 0 ++ u32be 0 ++ u32be m.config.timescale ++ u32be 0
    ++ u16be 0x55c4 ++ u16be 0
  u32be (8 + content.length) ++ tagBytes "mdhd" ++ content

/-- `CmafMuxer::write_hdlr`. -/
def write_hdlr : List Nat :=
  let content :=
    [0] ++ [0, 0, 0] ++ u32be 0 ++ tagBytes "vide" ++ List.replicate 12 0
    ++ tagBytes "VideoHandler" ++ [0]
  u32be (8 + content.length) ++ tagBytes "hdlr" ++ content

/-- `CmafMuxer::write_vmhd`. -/
def write_vmhd : List Nat :=
  let content :=
    [0] ++ [0, 0, 1] ++ u16be 0 ++ List.replicate 6 0
  u32be (8 + content.length) ++ tagBytes "vmhd" ++ content

/-- `CmafMuxer::write_dinf` (with the nested `dref` box and its self-contained
`url ` entry of declared size 12). -/
def write_dinf : List Nat :=
  let dref_content :=
    [0] ++ [0, 0, 0] ++ u32be 1
    ++ u32be 12 ++ tagBytes "url " ++ [0] ++ [0, 0, 1]
  let dinf_content :=
    u32be (8 + dref_content.length) ++ tagBytes "dref" ++ dref_content
  u32be (8 + dinf_content.length) ++ tagBytes "dinf" ++ dinf_content

/-- `CmafMuxer::write_avcc`: the `avcC` codec-configuration box built from the
stored SPS/PPS; profile/compatibility/level bytes come from the SPS when it
holds at least 4 bytes, else a fixed default. -/
def write_avcc (m : CmafMuxer) : List Nat :=
  let profile :=
    if 4 ≤ m.sps.length then [m.sps.getD 1 0, m.sps.getD 2 0, m.sps.getD 3 0]
    else [0x64, 0x00, 0x1f]
  let content :=
    [1] ++ profile ++ [0xFF]
    ++ [0xE1] ++ u16be m.sps.length ++ m.sps
    ++ [1] ++ u16be m.pps.length ++ m.pps
  u32be (8 + content.length) ++ tagBytes "avcC" ++ content

/-- The 32-byte compressor-name field of `write_avc1`. -/
def compressorBytes : List Nat :=
  let name := tagBytes "video-toolbox-sys"
  [name.length] ++ name ++ List.replicate (31 - name.length) 0

/-- `CmafMuxer::write_avc1`. -/
def write_avc1 (m : CmafMuxer) : List Nat :=
  let content :=
    List.replicate 6 0 ++ u16be 1
    ++ u16be 0 ++ u16be 0 ++ List.replicate 12 0
    ++ u16be m.width ++ u16be m.height
    ++ u32be 0x00480000 ++ u32be 0x00480000 ++ u32be 0 ++ u16be 1
    ++ compressorBytes
    ++ u16be 0x0018 ++ [0xFF, 0xFF]
    ++ write_avcc m
  u32be (8 + content.length) ++ tagBytes "avc1" ++ content

/-- `CmafMuxer::write_stsd`. -/
def write_stsd (m : CmafMuxer) : List Nat :=
  let content :=
    [0] ++ [0, 0, 0] ++ u32be 1 ++ write_avc1 m
  u32be (8 + content.length) ++ tagBytes "stsd" ++ content

/-- `CmafMuxer::write_empty_stts`. -/
def write_empty_stts : List Nat :=
  let content := [0] ++ [0, 0, 0] ++ u32be 0
  u32be (8 + content.length) ++ tagBytes "stts" ++ content

/-- `CmafMuxer::write_empty_stsc`. -/
def write_empty_stsc : List Nat :=
  let content := [0] ++ [0, 0, 0] ++ u32be 0
  u32be (8 + content.length) ++ tagBytes "stsc" ++ content

/-- `CmafMuxer::write_empty_stsz`. -/
def write_empty_stsz : List Nat :=
  let content := [0] ++ [0, 0, 0] ++ u32be 0 ++ u32be 0
  u32be (8 + content.length) ++ tagBytes "stsz" ++ content

/-- `CmafMuxer::write_empty_stco`. -/
def write_empty_stco : List Nat :=
  let content := [0] ++ [0, 0, 0] ++ u32be 0
  u32be (8 + content.length) ++ tagBytes "stco" ++ content

/-- `CmafMuxer::write_stbl`. -/
def write_stbl (m : CmafMuxer) : List Nat :=
  let content :=
    write_stsd m ++ write_empty_stts ++ write_empty_stsc
    ++ write_empty_stsz ++ write_empty_stco
  u32be (8 + content.length) ++ tagBytes "stbl" ++ content

/-- `CmafMuxer::write_minf`. -/
def write_minf (m : CmafMuxer) : List Nat :=
  let content := write_vmhd ++ write_dinf ++ write_stbl m
  u32be (8 + content.length) ++ tagBytes "minf" ++ content

/-- `CmafMuxer::write_mdia`. -/
def write_mdia (m : CmafMuxer) : List Nat :=
  let content := write_mdhd m ++ write_hdlr ++ write_minf m
  u32be (8 + content.length) ++ tagBytes "mdia" ++ content

/-- `CmafMuxer::write_trak`. -/
def write_trak (m : CmafMuxer) : List Nat :=
  let content := write_tkhd m ++ write_mdia m
  u32be (8 + content.length) ++ tagBytes "trak" ++ content

/-- `CmafMuxer::write_trex`. -/
def write_trex (m : CmafMuxer) : List Nat :=
  let content :=
    [0] ++ [0, 0, 0] ++ u32be m.track_id ++ u32be 1
    ++ u32be 0 ++ u32be 0 ++ u32be 0
  u32be (8 + content.length) ++ tagBytes "trex" ++ content

/-- `CmafMuxer::write_mvex`. -/
def write_mvex (m : CmafMuxer) : List Nat :=
  let content := write_trex m
  u32be (8 + content.length) ++ tagBytes "mvex" ++ content

/-- `CmafMuxer::write_moov`. -/
def write_moov (m : CmafMuxer) : List Nat :=
  let content := write_mvhd m ++ write_trak m ++ write_mvex m
  u32be (8 + content.length) ++ tagBytes "moov" ++ content

/-- `CmafMuxer::write_mfhd`: carries the current fragment sequence number
(`u32`, hence the mod-`2^32` byte encoding in `u32be`). -/
def write_mfhd (m : CmafMuxer) : List Nat :=
  let content := [0] ++ [0, 0, 0] ++ u32be m.sequence_number
  u32be (8 + content.length) ++ tagBytes "mfhd" ++ content

/-- `CmafMuxer::write_tfhd`: flags `0x020000` = default-base-is-moof. -/
def write_tfhd (m : CmafMuxer) : List Nat :=
  let content := [0] ++ [0x02, 0x00, 0x00] ++ u32be m.track_id
  u32be (8 + content.length) ++ tagBytes "tfhd" ++ content

/-- `CmafMuxer::write_tfdt`: version 1, 64-bit base decode time
`fragment_base_dts as u64`. -/
def write_tfdt (m : CmafMuxer) : List Nat :=
  let content := [1] ++ [0, 0, 0] ++ u64be (u64pat m.fragment_base_dts)
  u32be (8 + content.length) ++ tagBytes "tfdt" ++ content

/-- Per-sample flags written by `write_trun`: sync samples depend on no other
sample (`0x02000000`); non-sync samples depend on a prior one (`0x01010000`). -/
def sample_flags (f : PendingFrame) : Nat :=
  if f.is_sync then 0x02000000 else 0x01010000

/-- `CmafMuxer::write_trun`: computes `data_offset` analytically as
`moof_size + 8` from the fixed header sizes, exactly as the source does
(the `_moof_offset` parameter is unused in the source too). -/
def write_trun (m : CmafMuxer) (_moof_offset : Nat) : List Nat :=
  let sample_count := m.pending_frames.length
  let trun_content_size := 4 + 4 + 4 + sample_count * 16
  let trun_size := 8 + trun_content_size
  let tfhd_size := 8 + 8
  let tfdt_size := 8 + 12
  let traf_size := 8 + tfhd_size + tfdt_size + trun_size
  let mfhd_size := 8 + 8
  let moof_size := 8 + mfhd_size + traf_size
  let data_offset := moof_size + 8
  let content :=
    [0] ++ [0x00, 0x0F, 0x01]
    ++ u32be sample_count ++ u32be data_offset
    ++ m.pending_frames.flatMap (fun f =>
        u32be f.duration ++ u32be f.data.length
        ++ u32be (sample_flags f) ++ u32be f.composition_offset)
  u32be (8 + content.length) ++ tagBytes "trun" ++ content

/-- `CmafMuxer::write_traf`. -/
def write_traf (m : CmafMuxer) (buf_len : Nat) : List Nat :=
  let content := write_tfhd m ++ write_tfdt m ++ write_trun m buf_len
  u32be (8 + content.length) ++ tagBytes "traf" ++ content

/-- `CmafMuxer::write_moof`. -/
def write_moof (m : CmafMuxer) : List Nat :=
  let content := write_mfhd m ++ write_traf m 0
  u32be (8 + content.length) ++ tagBytes "moof" ++ content

/-- `CmafMuxer::write_mdat`: 8-byte header followed by the concatenated
sample payloads in submission order. -/
def write_mdat (m : CmafMuxer) : List Nat :=
  let total_data_size := (m.pending_frames.map (fun f => f.data.length)).sum
  u32be (8 + total_data_size) ++ tagBytes "mdat"
  ++ m.pending_frames.flatMap (fun f => f.data)

/-- `CmafMuxer::flush_fragment`: serializes `styp`+`moof`+`mdat`, then
increments the sequence number and clears the pending frames. -/
def flush_fragment (m : CmafMuxer) : List Nat × CmafMuxer :=
  let buf := write_styp ++ write_moof m ++ write_mdat m
  (buf, { m with sequence_number := m.sequence_number + 1, pending_frames := [] })

/-- `CmafMuxer::nal_units_to_avcc`: coded-slice NAL units only, each with a
4-byte big-endian length followed by the payload, appended in order. -/
def nal_units_to_avcc (nal_units : List NalUnit) : List Nat :=
  (nal_units.filter (fun n => n.is_slice)).foldl
    (fun buf n => buf ++ u32be n.data.length ++ n.data) []

/-- `CmafMuxer::create_init_segment`: stores the parameter sets and
dimensions, marks the muxer initialized and returns `ftyp ++ moov`. -/
def create_init_segment (m : CmafMuxer) (sps pps : List Nat)
    (width height : Nat) : CmafMuxer × List Nat :=
  let m' := { m with sps := sps, pps := pps, width := width, height := height,
                     initialized := true }
  (m', write_ftyp ++ write_moov m')

/-- The `should_flush` computation of `CmafMuxer::add_frame` (lines 169-177
of `cmaf_muxer.rs`): never flush while the pending list is empty; otherwise
flush when the frame is a keyframe and `(dts - fragment_base_dts) * 1000 /
timescale` (release-build `i64` arithmetic, `wrap64`; Rust truncating
division, `Int.tdiv`) reaches the configured fragment duration. -/
def should_flush_calc (m : CmafMuxer) (dts : Int) (is_keyframe : Bool) : Bool :=
  if m.pending_frames.isEmpty then false
  else
    let fragment_duration :=
      (wrap64 (wrap64 (dts - m.fragment_base_dts) * 1000)).tdiv
        (m.config.timescale : Int)
    is_keyframe && decide ((m.config.fragment_duration_ms : Int) ≤ fragment_duration)

/-- `CmafMuxer::add_frame`. -/
def add_frame (m : CmafMuxer) (nal_units : List NalUnit) (pts dts : Int)
    (duration : Nat) (is_keyframe : Bool) : CmafMuxer × Option (List Nat) :=
  if !m.initialized then (m, none)
  else
    let should_flush := should_flush_calc m dts is_keyframe
    let step1 :=
      if should_flush then
        let fm := flush_fragment m
        (fm.2, some fm.1)
      else (m, none)
    let m1 := step1.1
    let segment := step1.2
    let data := nal_units_to_avcc nal_units
    let m2 := if m1.pending_frames.isEmpty then { m1 with fragment_base_dts := dts } else m1
    let m3 := { m2 with
      pending_frames := m2.pending_frames ++
        [{ data := data, duration := duration, is_sync := is_keyframe,
           composition_offset := u32pat (pts - dts) }],
      last_dts := dts }
    (m3, segment)

/-- `CmafMuxer::flush`: force-closes a non-empty pending fragment. -/
def flush (m : CmafMuxer) : CmafMuxer × Option (List Nat) :=
  if m.pending_frames.isEmpty then (m, none)
  else
    let fm := flush_fragment m
    (fm.2, some fm.1)

end CmafMuxer

/-! ## Drivers: sequences of muxer calls -/

/-- Arguments of one `add_frame` call. -/
structure FrameInput where
  nal_units : List NalUnit
  pts : Int
  dts : Int
  duration : Nat
  is_keyframe : Bool
deriving DecidableEq, Repr

/-- `add_frame` applied to a bundled `FrameInput`. -/
def CmafMuxer.add_frame_in (m : CmafMuxer) (f : FrameInput) :
    CmafMuxer × Option (List Nat) :=
  m.add_frame f.nal_units f.pts f.dts f.duration f.is_keyframe

/-- Run a list of `add_frame` calls, collecting each call's return value. -/
def runFrames (m : CmafMuxer) (fs : List FrameInput) :
    CmafMuxer × List (Option (List Nat)) :=
  match fs with
  | [] => (m, [])
  | f :: rest =>
    let step := m.add_frame_in f
    let tail := runFrames step.1 rest
    (tail.1, step.2 :: tail.2)

/-- One muxer operation: an `add_frame` call or an explicit `flush`. -/
inductive MuxOp where
  | frame : FrameInput → MuxOp
  | flushOp : MuxOp
deriving DecidableEq, Repr

/-- Apply one operation. -/
def stepOp (m : CmafMuxer) (op : MuxOp) : CmafMuxer × Option (List Nat) :=
  match op with
  | .frame f => m.add_frame_in f
  | .flushOp => m.flush

/-- Run a list of operations, collecting only the emitted fragments. -/
def runOps (m : CmafMuxer) (ops : List MuxOp) : CmafMuxer × List (List Nat) :=
  match ops with
  | [] => (m, [])
  | op :: rest =>
    let step := stepOp m op
    let tail := runOps step.1 rest
    (tail.1, step.2.toList ++ tail.2)

/-- The per-access-unit pipeline of `examples/webcam_cmaf_stream.rs`
(lines 162-187): extract NAL units first and return early — without calling
`add_frame`, hence without touching the muxer — when extraction fails.
`none` means the process aborted (extraction panicked). -/
def submitAccessUnit (m : CmafMuxer) (data : List Nat) (nls : Nat)
    (pts dts : Int) (duration : Nat) (is_keyframe : Bool) :
    Option (CmafMuxer × Option (List Nat)) :=
  match parse_avcc_data data nls with
  | .panic => none
  | .err _ => some (m, none)
  | .ok nals => some (m.add_frame nals pts dts duration is_keyframe)

/-! ## Ghost state for the base-decode-time invariant

`PendingFrame` does not retain the DTS of the access unit it came from, so
the claim "`tfdt` equals the DTS of the fragment's first sample" is stated
through a ghost list carrying, in order, the DTS of every pending sample.
The ghost update mirrors `add_frame`'s update of `pending_frames` exactly:
cleared when a fragment is flushed, appended-to when a sample is stored. -/

/-- `add_frame` paired with the ghost list of pending-sample DTS values. -/
def addFrameDts (g : CmafMuxer × List Int) (f : FrameInput) :
    (CmafMuxer × List Int) × Option (List Nat) :=
  let step := g.1.add_frame_in f
  let ds :=
    if !g.1.initialized then g.2
    else if step.2.isSome then [f.dts]
    else g.2 ++ [f.dts]
  ((step.1, ds), step.2)

/-- `flush` paired with the ghost DTS list. -/
def flushDts (g : CmafMuxer × List Int) :
    (CmafMuxer × List Int) × Option (List Nat) :=
  let step := g.1.flush
  ((step.1, if step.2.isSome then [] else g.2), step.2)

/-- Invariant tying the ghost DTS list to the muxer state: it has one entry
per pending sample, and while the fragment is non-empty the stored
`fragment_base_dts` is the DTS of its first sample. -/
def InvBaseDts (g : CmafMuxer × List Int) : Prop :=
  g.1.pending_frames.length = g.2.length ∧
  (g.2 ≠ [] → g.1.fragment_base_dts = g.2.headI)

/-! ## Top-level box scanner (for the initialization-segment claim) -/

/-- Scan a buffer as a sequence of ISOBMFF boxes: read the declared 32-bit
size, record it with the 4-byte type tag, and skip ahead by the declared
size.  Succeeds only when the declared sizes tile the buffer exactly —
no gaps, no overlap, no trailing bytes. -/
def scanTopBoxes (bs : List Nat) : Option (List (Nat × List Nat)) :=
  if hne : bs.isEmpty then some []
  else if h8 : 8 ≤ bs.length then
    let sz := readU32At bs 0
    if hsz : 8 ≤ sz ∧ sz ≤ bs.length then
      match scanTopBoxes (bs.drop sz) with
      | some rest => some ((sz, (bs.drop 4).take 4) :: rest)
      | none => none
    else none
  else none
termination_by bs.length
decreasing_by
  simp only [List.length_drop]
  omega

/-! ## The concrete 60-frame scenario -/

/-- SPS used by the scenario (the sample SPS from the repository's tests,
beginning `0x67 0x64 0x00 0x1f`). -/
def scSps : List Nat := [0x67, 0x64, 0x00, 0x1f, 0xac, 0xd9, 0x40, 0x50]

/-- PPS used by the scenario (beginning `0x68`). -/
def scPps : List Nat := [0x68, 0xee, 0x3c, 0x80]

/-- The single NAL unit of scenario frame `i`: an IDR slice for the
keyframes (frames 0 and 30), a non-IDR slice otherwise. -/
def scNal (i : Nat) : NalUnit :=
  if i % 30 == 0 then { data := [0x65, i % 256], nal_type := 5 }
  else { data := [0x41, i % 256], nal_type := 1 }

/-- Scenario frame `i`: DTS = PTS = `3000 * i` at timescale 90000, duration
3000, keyframe exactly at frames 0 and 30. -/
def scFrame (i : Nat) : FrameInput where
  nal_units := [scNal i]
  pts := (3000 * i : Nat)
  dts := (3000 * i : Nat)
  duration := 3000
  is_keyframe := i % 30 == 0

/-- The 60 scenario frames. -/
def scFrames : List FrameInput := (List.range 60).map scFrame

/-- The initialized scenario muxer: fragment duration 1000 ms, timescale
90000, 1280×720. -/
def scInit : CmafMuxer :=
  ((CmafMuxer.new ⟨1000, 90000⟩).create_init_segment scSps scPps 1280 720).1

/-- Full scenario run. -/
def scRun : CmafMuxer × List (Option (List Nat)) := runFrames scInit scFrames

/-- The `PendingFrame` that frame `i` of the scenario is stored as: its AVCC
payload (4-byte length + 2-byte slice), duration 3000, sync flag at frames
0 and 30, composition offset 0. -/
def scSample (i : Nat) : PendingFrame where
  data := u32be 2 ++ (scNal i).data
  duration := 3000
  is_sync := i % 30 == 0
  composition_offset := 0

/-- The muxer state whose flush produces the first scenario fragment:
samples of frames 0-29, sequence number 1, base DTS 0. -/
def scStateA : CmafMuxer :=
  { scInit with pending_frames := (List.range 30).map scSample,
                sequence_number := 1, fragment_base_dts := 0,
                last_dts := 87000 }

/-- The muxer state whose flush produces the second scenario fragment:
samples of frames 30-59, sequence number 2, base DTS 90000. -/
def scStateB : CmafMuxer :=
  { scInit with pending_frames := ((List.range 30).map (fun i => 30 + i)).map scSample,
                sequence_number := 2, fragment_base_dts := 90000,
                last_dts := 177000 }

/-! ## Byte-level lemmas -/

@[simp] lemma length_u16be (n : Nat) : (u16be n).length = 2 := rfl

@[simp] lemma length_u32be (n : Nat) : (u32be n).length = 4 := rfl

@[simp] lemma length_u64be (n : Nat) : (u64be n).length = 8 := rfl

@[simp] lemma length_tagBytes (s : String) : (tagBytes s).length = s.length := by
  simp [tagBytes, String.toList]

lemma beVal_u32be (n : Nat) (h : n < 2^32) : beVal (u32be n) = n := by
  simp only [beVal, u32be, List.foldl]
  omega

lemma readU32At_here (D : Nat) (S : List Nat) (h : D < 2^32) :
    readU32At (u32be D ++ S) 0 = D := by
  rw [readU32At, List.drop_zero, List.take_append_of_le_length (by simp),
    show (4 : Nat) = (u32be D).length from rfl, List.take_length]
  exact beVal_u32be D h

lemma readU32At_shift (P bs : List Nat) (i : Nat) :
    readU32At (P ++ bs) (P.length + i) = readU32At bs i := by
  rw [readU32At, readU32At, List.drop_append]

/-- Declared-size consistency of a serialized box: the 32-bit size field at
its head equals its total serialized length. -/
def boxSizeOk (bs : List Nat) : Prop :=
  readU32At bs 0 = bs.length

lemma boxSizeOk_mk (tag content : List Nat) (ht : tag.length = 4)
    (h : 8 + content.length < 2^32) :
    boxSizeOk (u32be (8 + content.length) ++ tag ++ content) := by
  rw [boxSizeOk, List.append_assoc, readU32At_here _ _ h]
  simp [ht]
  omega

/-! ## Box length lemmas -/

namespace CmafMuxer

@[simp] lemma length_write_ftyp : write_ftyp.length = 40 := rfl

@[simp] lemma length_write_styp : write_styp.length = 32 := rfl

@[simp] lemma length_matrixBytes : matrixBytes.length = 36 := rfl

@[simp] lemma length_write_mvhd (m : CmafMuxer) : (write_mvhd m).length = 108 := by
  simp [write_mvhd, show ("mvhd".length) = 4 from rfl]

@[simp] lemma length_write_tkhd (m : CmafMuxer) : (write_tkhd m).length = 92 := by
  simp [write_tkhd, show ("tkhd".length) = 4 from rfl]

@[simp] lemma length_write_mdhd (m : CmafMuxer) : (write_mdhd m).length = 32 := by
  simp [write_mdhd, show ("mdhd".length) = 4 from rfl]

@[simp] lemma length_write_hdlr : write_hdlr.length = 45 := rfl

@[simp] lemma length_write_vmhd : write_vmhd.length = 20 := rfl

@[simp] lemma length_write_dinf : write_dinf.length = 36 := rfl

@[simp] lemma length_write_avcc (m : CmafMuxer) :
    (write_avcc m).length = 19 + m.sps.length + m.pps.length := by
  rcases Nat.lt_or_ge m.sps.length 4 with h | h
  · simp [write_avcc, Nat.not_le.mpr h, show ("avcC".length) = 4 from rfl]
    omega
  · simp [write_avcc, h, show ("avcC".length) = 4 from rfl]
    omega

@[simp] lemma length_compressorBytes : compressorBytes.length = 32 := rfl

@[simp] lemma length_write_avc1 (m : CmafMuxer) :
    (write_avc1 m).length = 105 + m.sps.length + m.pps.length := by
  simp [write_avc1, show ("avc1".length) = 4 from rfl]
  omega

@[simp] lemma length_write_stsd (m : CmafMuxer) :
    (write_stsd m).length = 121 + m.sps.length + m.pps.length := by
  simp [write_stsd, show ("stsd".length) = 4 from rfl]
  omega

@[simp] lemma length_write_empty_stts : write_empty_stts.length = 16 := rfl

@[simp] lemma length_write_empty_stsc : write_empty_stsc.length = 16 := rfl

@[simp] lemma length_write_empty_stsz : write_empty_stsz.length = 20 := rfl

@[simp] lemma length_write_empty_stco : write_empty_stco.length = 16 := rfl

@[simp] lemma length_write_stbl (m : CmafMuxer) :
    (write_stbl m).length = 197 + m.sps.length + m.pps.length := by
  simp [write_stbl, show ("stbl".length) = 4 from rfl]
  omega

@[simp] lemma length_write_minf (m : CmafMuxer) :
    (write_minf m).length = 261 + m.sps.length + m.pps.length := by
  simp [write_minf, show ("minf".length) = 4 from rfl]
  omega

@[simp] lemma length_write_mdia (m : CmafMuxer) :
    (write_mdia m).length = 346 + m.sps.length + m.pps.length := by
  simp [write_mdia, show ("mdia".length) = 4 from rfl]
  omega

@[simp] lemma length_write_trak (m : CmafMuxer) :
    (write_trak m).length = 446 + m.sps.length + m.pps.length := by
  simp [write_trak, show ("trak".length) = 4 from rfl]
  omega

@[simp] lemma length_write_trex (m : CmafMuxer) : (write_trex m).length = 32 := by
  simp [write_trex, show ("trex".length) = 4 from rfl]

@[simp] lemma length_write_mvex (m : CmafMuxer) : (write_mvex m).length = 40 := by
  simp [write_mvex, show ("mvex".length) = 4 from rfl]

@[simp] lemma length_write_moov (m : CmafMuxer) :
    (write_moov m).length = 602 + m.sps.length + m.pps.length := by
  simp [write_moov, show ("moov".length) = 4 from rfl]
  omega

@[simp] lemma length_write_mfhd (m : CmafMuxer) : (write_mfhd m).length = 16 := by
  simp [write_mfhd, show ("mfhd".length) = 4 from rfl]

@[simp] lemma length_write_tfhd (m : CmafMuxer) : (write_tfhd m).length = 16 := by
  simp [write_tfhd, show ("tfhd".length) = 4 from rfl]

@[simp] lemma length_write_tfdt (m : CmafMuxer) : (write_tfdt m).length = 20 := by
  simp [write_tfdt, show ("tfdt".length) = 4 from rfl]

@[simp] lemma length_write_trun (m : CmafMuxer) (o : Nat) :
    (write_trun m o).length = 20 + 16 * m.pending_frames.length := by
  simp [write_trun, List.length_flatMap, show ("trun".length) = 4 from rfl,
    show (List.length ∘ fun f : PendingFrame =>
      u32be f.duration ++ (u32be f.data.length
        ++ (u32be (sample_flags f) ++ u32be f.composition_offset))) = (fun _ => 16) from rfl,
    List.sum_replicate, smul_eq_mul]
  omega

@[simp] lemma length_write_traf (m : CmafMuxer) (o : Nat) :
    (write_traf m o).length = 64 + 16 * m.pending_frames.length := by
  simp [write_traf, show ("traf".length) = 4 from rfl]
  omega

@[simp] lemma length_write_moof (m : CmafMuxer) :
    (write_moof m).length = 88 + 16 * m.pending_frames.length := by
  simp [write_moof, show ("moof".length) = 4 from rfl]
  omega

@[simp] lemma length_write_mdat (m : CmafMuxer) :
    (write_mdat m).length =
      8 + (m.pending_frames.map (fun f => f.data.length)).sum := by
  simp [write_mdat, List.length_flatMap, show ("mdat".length) = 4 from rfl,
    show (List.length ∘ fun f : PendingFrame => f.data)
      = (fun f : PendingFrame => f.data.length) from rfl]
  omega

end CmafMuxer

/-! ## Positional extraction helpers -/

lemma extract_at (P mid S : List Nat) (i k : Nat) (hP : P.length = i)
    (hm : mid.length = k) :
    ((P ++ (mid ++ S)).drop i).take k = mid := by
  rw [← hP, List.drop_left, List.take_left' hm]

lemma readU32At_at (P S : List Nat) (D i : Nat) (hP : P.length = i)
    (hD : D < 2^32) :
    readU32At (P ++ (u32be D ++ S)) i = D := by
  rw [readU32At, ← hP, List.drop_left, List.take_left' (length_u32be D),
    beVal_u32be _ hD]

lemma wrap64_eq_of_range (x : Int) (h1 : -(2^63) ≤ x) (h2 : x < 2^63) :
    wrap64 x = x := by
  have h3 : Int.emod (x + 2^63) (2^64) = x + 2^63 :=
    Int.emod_eq_of_lt (by omega) (by omega)
  rw [wrap64, h3]
  omega

/-! ## Behavioural lemmas about `add_frame` and `flush` -/

namespace CmafMuxer

/-- The `PendingFrame` a given `add_frame` call stores. -/
def storedSample (nal_units : List NalUnit) (pts dts : Int) (duration : Nat)
    (is_keyframe : Bool) : PendingFrame where
  data := nal_units_to_avcc nal_units
  duration := duration
  is_sync := is_keyframe
  composition_offset := u32pat (pts - dts)

lemma add_frame_uninit (m : CmafMuxer) (nals : List NalUnit) (pts dts : Int)
    (dur : Nat) (key : Bool) (h : m.initialized = false) :
    m.add_frame nals pts dts dur key = (m, none) := by
  simp [add_frame, h]

lemma add_frame_flush_case (m : CmafMuxer) (nals : List NalUnit) (pts dts : Int)
    (dur : Nat) (key : Bool) (hinit : m.initialized = true)
    (hsf : should_flush_calc m dts key = true) :
    m.add_frame nals pts dts dur key =
      ({ m with sequence_number := m.sequence_number + 1,
                pending_frames := [storedSample nals pts dts dur key],
                fragment_base_dts := dts, last_dts := dts },
       some (flush_fragment m).1) := by
  simp [add_frame, hinit, hsf, flush_fragment, storedSample]

lemma add_frame_noflush_case (m : CmafMuxer) (nals : List NalUnit) (pts dts : Int)
    (dur : Nat) (key : Bool) (hinit : m.initialized = true)
    (hsf : should_flush_calc m dts key = false) :
    m.add_frame nals pts dts dur key =
      ({ m with
          pending_frames := m.pending_frames ++ [storedSample nals pts dts dur key],
          fragment_base_dts :=
            if m.pending_frames.isEmpty then dts else m.fragment_base_dts,
          last_dts := dts },
       none) := by
  rcases hemp : m.pending_frames.isEmpty with _ | _ <;>
    simp [add_frame, hinit, hsf, hemp, storedSample]

lemma should_flush_of_empty (m : CmafMuxer) (dts : Int) (key : Bool)
    (h : m.pending_frames.isEmpty = true) :
    should_flush_calc m dts key = false := by
  simp [should_flush_calc, h]

lemma flush_empty (m : CmafMuxer) (h : m.pending_frames.isEmpty = true) :
    m.flush = (m, none) := by
  simp [flush, h]

lemma flush_nonempty (m : CmafMuxer) (h : m.pending_frames.isEmpty = false) :
    m.flush = ((flush_fragment m).2, some (flush_fragment m).1) := by
  simp [flush, h]

/-! ## Positions of the serialized header fields

The `styp`+`moof` header of every emitted fragment has a fixed byte layout up
to the start of the trun sample table: `styp` occupies bytes 0-31, the
`mfhd` sequence-number field bytes 52-55, the `tfdt` version byte 88 and its
64-bit base-decode-time bytes 92-99, and the `trun` `data_offset` field
bytes 116-119.  Because every box writer produces a list whose spine is
concrete, each of these facts holds by reduction. -/

lemma seq_field_eq (m : CmafMuxer) :
    (((flush_fragment m).1.drop 52).take 4) = u32be m.sequence_number := rfl

lemma tfdt_version_eq (m : CmafMuxer) :
    (((flush_fragment m).1.drop 88).take 4) = [1, 0, 0, 0] := rfl

lemma tfdt_field_eq (m : CmafMuxer) :
    (((flush_fragment m).1.drop 92).take 8) = u64be (u64pat m.fragment_base_dts) := rfl

lemma trun_offset_bytes_eq (m : CmafMuxer) :
    (((flush_fragment m).1.drop 116).take 4) =
      u32be (8 + (8 + 8) +
        (8 + (8 + 8) + (8 + 12) + (8 + (4 + 4 + 4 + m.pending_frames.length * 16))) + 8) := rfl

lemma trun_offset_field (m : CmafMuxer)
    (hn : m.pending_frames.length ≤ 2^20) :
    readU32At (flush_fragment m).1 116 = 96 + 16 * m.pending_frames.length := by
  rw [readU32At, trun_offset_bytes_eq, beVal_u32be _ (by omega)]
  omega

end CmafMuxer

/-! ## Claim-support definitions -/

/-- The 32-bit value stored in the `trun` box's `data_offset` field of an
emitted fragment, measured from the serialized bytes: the field occupies
bytes 116-119 of every fragment (fixed `styp`/`moof`/`mfhd`/`traf`/`tfhd`/
`tfdt`/`trun` header sizes precede it). -/
def trunDataOffset (frag : List Nat) : Nat := readU32At frag 116

/-- Concrete one-sample muxer state used as counterexample/witness input. -/
def cexMuxer : CmafMuxer :=
  { scInit with
      pending_frames := [{ data := u32be 2 ++ [0x65, 0], duration := 3000,
                           is_sync := true, composition_offset := 0 }] }

lemma nal_units_to_avcc_flatMap (nals : List NalUnit) :
    CmafMuxer.nal_units_to_avcc nals
      = (nals.filter (fun n => n.is_slice)).flatMap
          (fun n => u32be n.data.length ++ n.data) := by
  rw [CmafMuxer.nal_units_to_avcc]
  generalize (nals.filter (fun n => n.is_slice)) = l
  suffices h : ∀ acc : List Nat,
      l.foldl (fun buf n => buf ++ u32be n.data.length ++ n.data) acc
        = acc ++ l.flatMap (fun n => u32be n.data.length ++ n.data) by
    simpa using h []
  induction l with
  | nil => intro acc; simp
  | cons x xs ih =>
      intro acc
      rw [List.foldl_cons, ih, List.flatMap_cons]
      simp [List.append_assoc]

/-! ## Claims -/

set_option maxRecDepth 10000 in
/-- Claim C3: in the concrete 60-frame scenario (SPS `67 64 00 1f ...`, PPS
`68 ...`, 1280×720, DTS `3000*i` at timescale 90000, keyframes at frames 0
and 30, fragment duration 1000 ms), `add_frame` returns `none` for every
frame except frame 30, whose call flushes exactly the fragment holding the
samples of frames 0-29 (sequence number 1, base DTS 0), and the final
`flush` returns the fragment holding the samples of frames 30-59 (sequence
number 2, base DTS 90000). -/
theorem claim_C3 :
    scRun.2 = List.replicate 30 none
      ++ [some (CmafMuxer.flush_fragment scStateA).1]
      ++ List.replicate 29 none ∧
    (CmafMuxer.flush scRun.1).2 = some (CmafMuxer.flush_fragment scStateB).1 := by
  decide

/-- Claim C1, counterexample: for the one-sample fragment flushed from
`cexMuxer`, the `trun` `data_offset` field holds 112 = `moof` size + 8,
whereas the byte length of everything preceding the first `mdat` payload
byte within the fragment — the `styp` box (32 bytes) plus the `moof` box
plus the 8-byte `mdat` header, as the claim words it — is 144.  The claim's
equality is therefore false on this fragment. -/
theorem claim_C1_counterexample :
    trunDataOffset (CmafMuxer.flush_fragment cexMuxer).1 = 112 ∧
    CmafMuxer.write_styp.length + (CmafMuxer.write_moof cexMuxer).length + 8 = 144 ∧
    ¬ (trunDataOffset (CmafMuxer.flush_fragment cexMuxer).1 =
        CmafMuxer.write_styp.length + (CmafMuxer.write_moof cexMuxer).length + 8) := by
  decide

/-- Claim C1, amended: for every emitted fragment, the `trun` `data_offset`
field equals the byte length of the `moof` box plus the 8-byte `mdat`
header — i.e. everything preceding the first `mdat` payload byte measured
from the start of `moof` (per the tfhd default-base-is-moof flag), which
excludes the fragment's leading 32-byte `styp` box; equivalently, the
fragment's bytes from position `styp.length + data_offset` onwards are
exactly the concatenated sample payloads. -/
theorem claim_C1_amended (m : CmafMuxer)
    (hn : m.pending_frames.length ≤ 2^20) :
    (CmafMuxer.flush_fragment m).1
      = CmafMuxer.write_styp ++ CmafMuxer.write_moof m ++ CmafMuxer.write_mdat m ∧
    trunDataOffset (CmafMuxer.flush_fragment m).1
      = (CmafMuxer.write_moof m).length + 8 ∧
    ((CmafMuxer.flush_fragment m).1).drop
        (CmafMuxer.write_styp.length + trunDataOffset (CmafMuxer.flush_fragment m).1)
      = m.pending_frames.flatMap (fun f => f.data) := by
  refine ⟨rfl, ?_, ?_⟩
  · rw [trunDataOffset, CmafMuxer.trun_offset_field m hn]
    simp
    omega
  · rw [trunDataOffset, CmafMuxer.trun_offset_field m hn]
    have hsplit : (CmafMuxer.flush_fragment m).1
        = (CmafMuxer.write_styp ++ CmafMuxer.write_moof m
            ++ (u32be (8 + (List.map (fun f => f.data.length) m.pending_frames).sum)
                ++ tagBytes "mdat"))
          ++ m.pending_frames.flatMap (fun f => f.data) := by
      simp [CmafMuxer.flush_fragment, CmafMuxer.write_mdat, List.append_assoc]
    rw [hsplit]
    rw [show CmafMuxer.write_styp.length + (96 + 16 * m.pending_frames.length)
          = (CmafMuxer.write_styp ++ CmafMuxer.write_moof m
              ++ (u32be (8 + (List.map (fun f => f.data.length) m.pending_frames).sum)
                  ++ tagBytes "mdat")).length + 0 by
        simp [show ("mdat".length) = 4 from rfl] <;> omega]
    rw [List.drop_append, List.drop_zero]

/-- Witness for C1's amended theorem at the concrete one-sample state. -/
theorem claim_C1_amended_witness :
    cexMuxer.pending_frames.length ≤ 2^20 ∧
    trunDataOffset (CmafMuxer.flush_fragment cexMuxer).1
      = (CmafMuxer.write_moof cexMuxer).length + 8 :=
  ⟨by decide, (claim_C1_amended cexMuxer (by decide)).2.1⟩

/-- Claim C9: on a muxer whose initialization segment was never created,
`add_frame` is a no-op returning `none` and leaving the state unchanged;
any sequence of such calls leaves the freshly constructed muxer intact with
no pending samples, and `flush` then returns `none` — no fragment can be
emitted before initialization. -/
theorem claim_C9 :
    (∀ (m : CmafMuxer) (nals : List NalUnit) (pts dts : Int) (dur : Nat) (key : Bool),
        m.initialized = false → m.add_frame nals pts dts dur key = (m, none)) ∧
    (∀ cfg : CmafConfig, (CmafMuxer.new cfg).initialized = false) ∧
    (∀ (cfg : CmafConfig) (fs : List FrameInput),
        runFrames (CmafMuxer.new cfg) fs
          = (CmafMuxer.new cfg, List.replicate fs.length none)) ∧
    (∀ (cfg : CmafConfig) (fs : List FrameInput),
        ((runFrames (CmafMuxer.new cfg) fs).1).flush
          = ((runFrames (CmafMuxer.new cfg) fs).1, none)) := by
  have hrun : ∀ (cfg : CmafConfig) (fs : List FrameInput),
      runFrames (CmafMuxer.new cfg) fs
        = (CmafMuxer.new cfg, List.replicate fs.length none) := by
    intro cfg fs
    induction fs with
    | nil => rfl
    | cons f rest ih =>
        have hstep : (CmafMuxer.new cfg).add_frame f.nal_units f.pts f.dts
            f.duration f.is_keyframe = (CmafMuxer.new cfg, none) :=
          CmafMuxer.add_frame_uninit _ _ _ _ _ _ rfl
        simp only [runFrames, CmafMuxer.add_frame_in, hstep, ih,
          List.length_cons, List.replicate]
  refine ⟨fun m nals pts dts dur key h =>
      CmafMuxer.add_frame_uninit m nals pts dts dur key h,
    fun cfg => rfl, hrun, ?_⟩
  intro cfg fs
  rw [hrun]
  exact CmafMuxer.flush_empty _ rfl

/-- Witness for C9 at a concrete configuration and frame list. -/
theorem claim_C9_witness :
    runFrames (CmafMuxer.new ⟨1000, 90000⟩) [⟨[], 0, 0, 0, true⟩]
      = (CmafMuxer.new ⟨1000, 90000⟩, [none]) :=
  claim_C9.2.2.1 ⟨1000, 90000⟩ [⟨[], 0, 0, 0, true⟩]

/-- Claim C7: `nal_units_to_avcc` produces exactly the concatenation, in
submission order over the NAL units whose type tag is a coded slice (IDR
type 5 or non-IDR type 1), of a 4-byte big-endian length prefix followed by
the payload; all other NAL unit types (parameter sets included) contribute
nothing, and for payloads under `2^32` bytes the 4-byte field decodes back
to the payload length. -/
theorem claim_C7 (nals : List NalUnit) :
    CmafMuxer.nal_units_to_avcc nals
      = (nals.filter (fun n => n.is_slice)).flatMap
          (fun n => u32be n.data.length ++ n.data) ∧
    (∀ n : NalUnit, n.is_slice = true ↔ (n.nal_type = 5 ∨ n.nal_type = 1)) ∧
    (∀ n ∈ nals, n.data.length < 2^32 →
        beVal (u32be n.data.length) = n.data.length) := by
  refine ⟨nal_units_to_avcc_flatMap nals, ?_, ?_⟩
  · intro n
    simp [NalUnit.is_slice, nal_unit_type.IDR_SLICE, nal_unit_type.NON_IDR_SLICE]
  · intro n _ h
    exact beVal_u32be _ h

/-- Witness for C7 at a concrete NAL list (IDR slice kept, SPS discarded,
non-IDR slice kept). -/
theorem claim_C7_witness :
    CmafMuxer.nal_units_to_avcc
        [⟨[0x65, 1], 5⟩, ⟨[0x67, 0x64], 7⟩, ⟨[0x41, 2], 1⟩]
      = u32be 2 ++ [0x65, 1] ++ (u32be 2 ++ [0x41, 2]) ∧
    beVal (u32be 2) = 2 := by
  have h := claim_C7 [⟨[0x65, 1], 5⟩, ⟨[0x67, 0x64], 7⟩, ⟨[0x41, 2], 1⟩]
  refine ⟨?_, h.2.2 ⟨[0x65, 1], 5⟩ (by decide) (by decide)⟩
  rw [h.1]
  decide

lemma parseLoop_ok_of_wf (data : List Nat) (nls : Nat) :
    ∀ offset, wellFormedFrom data nls offset = true →
      ∃ l, parseLoop data nls offset = .ok l := by
  have H : ∀ (k offset : Nat), data.length - offset ≤ k →
      wellFormedFrom data nls offset = true →
      ∃ l, parseLoop data nls offset = .ok l := by
    intro k
    induction k with
    | zero =>
        intro offset hk hwf
        rw [wellFormedFrom] at hwf
        by_cases hv : nls = 4 ∨ nls = 2 ∨ nls = 1
        · by_cases hcond : offset + nls ≤ data.length
          · exfalso; rcases hv with h | h | h <;> omega
          · refine ⟨[], ?_⟩
            rw [parseLoop]
            simp [hcond]
        · simp [hv] at hwf
          refine ⟨[], ?_⟩
          rw [parseLoop]
          simp [show ¬ (offset + nls ≤ data.length) by omega]
    | succ k ih =>
        intro offset hk hwf
        rw [wellFormedFrom] at hwf
        by_cases hv : nls = 4 ∨ nls = 2 ∨ nls = 1
        · by_cases hcond : offset + nls ≤ data.length
          · simp only [dif_pos hv, dif_pos hcond, Bool.and_eq_true, bne_iff_ne,
              ne_eq, decide_eq_true_eq] at hwf
            obtain ⟨⟨hne, hle⟩, hwf2⟩ := hwf
            obtain ⟨l, hl⟩ := ih (offset + nls + readBE data offset nls)
              (by rcases hv with h | h | h <;> omega) hwf2
            rw [parseLoop]
            simp [hv, hcond,
              show ¬ (data.length < offset + nls + readBE data offset nls) by omega,
              hne, hl]
          · refine ⟨[], ?_⟩
            rw [parseLoop]
            simp [hcond]
        · simp [hv] at hwf
          refine ⟨[], ?_⟩
          rw [parseLoop]
          simp [show ¬ (offset + nls ≤ data.length) by omega]
  intro offset hwf
  exact H data.length offset (by omega) hwf

/-- Claim C8: whenever the parse loop of `parse_avcc_data` reads a declared
NAL length that exceeds the bytes remaining after the length field, it
returns the structural error `BufferTooSmall` (no panic); and in the
per-access-unit pipeline, an extraction error returns the muxer unchanged
with no output — extraction itself is a pure function of the buffer, so no
muxer state is read or mutated by it. -/
theorem claim_C8 :
    (∀ (data : List Nat) (nls offset : Nat),
        (nls = 4 ∨ nls = 2 ∨ nls = 1) →
        offset + nls ≤ data.length →
        data.length < offset + nls + readBE data offset nls →
        parseLoop data nls offset = .err .BufferTooSmall) ∧
    (∀ (m : CmafMuxer) (data : List Nat) (nls : Nat) (pts dts : Int)
        (dur : Nat) (key : Bool) (e : NalError),
        parse_avcc_data data nls = .err e →
        submitAccessUnit m data nls pts dts dur key = some (m, none)) := by
  constructor
  · intro data nls offset hv hcond hbig
    rw [parseLoop]
    simp [hcond, hv, hbig]
  · intro m data nls pts dts dur key e h
    simp [submitAccessUnit, h]

/-- Witness for C8: a 4-byte buffer whose single length field declares 9
bytes with 0 remaining. -/
theorem claim_C8_witness :
    parse_avcc_data [0, 0, 0, 9] 4 = .err .BufferTooSmall ∧
    submitAccessUnit cexMuxer [0, 0, 0, 9] 4 0 0 0 true
      = some (cexMuxer, none) := by
  have h1 : parseLoop [0, 0, 0, 9] 4 0 = .err .BufferTooSmall :=
    claim_C8.1 [0, 0, 0, 9] 4 0 (Or.inl rfl) (by decide) (by decide)
  exact ⟨h1, claim_C8.2 cexMuxer [0, 0, 0, 9] 4 0 0 0 true .BufferTooSmall h1⟩

/-- Claim C10: when a parsed NAL length field is 0 (with the length field
itself in bounds), `parse_avcc_data` indexes the first byte of the empty
payload and panics — it returns neither a NAL list nor a structural error;
and on every buffer all of whose reachable length fields are non-zero and
in bounds, parsing is total and returns the NAL list. -/
theorem claim_C10 :
    (∀ (data : List Nat) (nls offset : Nat),
        (nls = 4 ∨ nls = 2 ∨ nls = 1) →
        offset + nls ≤ data.length →
        readBE data offset nls = 0 →
        parseLoop data nls offset = .panic) ∧
    (∀ (data : List Nat) (nls : Nat),
        wellFormedFrom data nls 0 = true →
        ∃ l, parse_avcc_data data nls = .ok l) := by
  constructor
  · intro data nls offset hv hcond hzero
    rw [parseLoop]
    simp [hcond, hv, hzero]
  · intro data nls hwf
    exact parseLoop_ok_of_wf data nls 0 hwf

/-- Witness for C10: a zero length field panics; a well-formed one-NAL
buffer parses to a list. -/
theorem claim_C10_witness :
    parse_avcc_data [0, 0, 0, 0, 7] 4 = .panic ∧
    (∃ l, parse_avcc_data [0, 0, 0, 1, 0x65] 4 = .ok l) :=
  ⟨claim_C10.1 [0, 0, 0, 0, 7] 4 0 (Or.inl rfl) (by decide) (by decide),
   claim_C10.2 [0, 0, 0, 1, 0x65] 4 (by
      rw [wellFormedFrom]
      simp [readBE, beVal]
      rw [wellFormedFrom]
      simp)⟩

/-- The flush condition as the claim words it: a fragment is already open
and non-empty, the arriving frame is a keyframe, and
`(dts − fragment_base_dts)` rescaled to milliseconds (truncating integer
division, as the source computes it) has reached the configured target
fragment duration. -/
def boundaryCrossed (m : CmafMuxer) (dts : Int) (is_keyframe : Bool) : Prop :=
  m.pending_frames ≠ [] ∧ is_keyframe = true ∧
    (m.config.fragment_duration_ms : Int) ≤
      ((dts - m.fragment_base_dts) * 1000).tdiv (m.config.timescale : Int)

lemma should_flush_iff (m : CmafMuxer) (dts : Int) (key : Bool)
    (hlo : -(2^63) ≤ (dts - m.fragment_base_dts) * 1000)
    (hhi : (dts - m.fragment_base_dts) * 1000 < 2^63) :
    CmafMuxer.should_flush_calc m dts key = true ↔ boundaryCrossed m dts key := by
  have hw1 : wrap64 (dts - m.fragment_base_dts) = dts - m.fragment_base_dts :=
    wrap64_eq_of_range _ (by omega) (by omega)
  have hw2 : wrap64 ((dts - m.fragment_base_dts) * 1000)
      = (dts - m.fragment_base_dts) * 1000 := wrap64_eq_of_range _ hlo hhi
  rw [CmafMuxer.should_flush_calc]
  rcases hemp : m.pending_frames with _ | ⟨f, rest⟩
  · simp [boundaryCrossed, hemp]
  · simp [boundaryCrossed, hemp, hw1, hw2, and_comm]

/-- Claim C2: on an initialized muxer (with a positive timescale, and DTS
deltas small enough that the source's `i64` arithmetic cannot wrap),
`add_frame` emits a fragment exactly when `boundaryCrossed` holds; an
emission flushes the previously open fragment (serialized from the old
pending samples only) and starts the new fragment with the arriving
keyframe as its only sample; no emission happens on an empty pending list
(a fragment is never flushed on its very first sample); and a call that
crosses no boundary returns `none` and just appends the sample. -/
theorem claim_C2 (m : CmafMuxer) (nals : List NalUnit) (pts dts : Int)
    (dur : Nat) (key : Bool)
    (hinit : m.initialized = true)
    (hts : 0 < m.config.timescale)
    (hlo : -(2^63) ≤ (dts - m.fragment_base_dts) * 1000)
    (hhi : (dts - m.fragment_base_dts) * 1000 < 2^63) :
    ((m.add_frame nals pts dts dur key).2.isSome = true ↔ boundaryCrossed m dts key) ∧
    (boundaryCrossed m dts key →
      m.add_frame nals pts dts dur key
        = ({ m with sequence_number := m.sequence_number + 1,
                    pending_frames := [CmafMuxer.storedSample nals pts dts dur key],
                    fragment_base_dts := dts, last_dts := dts },
           some (CmafMuxer.flush_fragment m).1)) ∧
    (m.pending_frames = [] → (m.add_frame nals pts dts dur key).2 = none) ∧
    (¬ boundaryCrossed m dts key →
      (m.add_frame nals pts dts dur key).2 = none ∧
      (m.add_frame nals pts dts dur key).1.pending_frames
        = m.pending_frames ++ [CmafMuxer.storedSample nals pts dts dur key]) := by
  have hiff := should_flush_iff m dts key hlo hhi
  by_cases hb : boundaryCrossed m dts key
  · have hsf : CmafMuxer.should_flush_calc m dts key = true := hiff.mpr hb
    have heq := CmafMuxer.add_frame_flush_case m nals pts dts dur key hinit hsf
    refine ⟨by simp [heq, hb], fun _ => heq, fun hp => absurd hb ?_,
      fun hnb => absurd hb hnb⟩
    intro hbc
    exact hbc.1 hp
  · have hsf : CmafMuxer.should_flush_calc m dts key = false := by
      rcases h : CmafMuxer.should_flush_calc m dts key with _ | _
      · rfl
      · exact absurd (hiff.mp h) hb
    have heq := CmafMuxer.add_frame_noflush_case m nals pts dts dur key hinit hsf
    refine ⟨by simp [heq, hb], fun hbc => absurd hbc hb, fun _ => by simp [heq],
      fun _ => ⟨by simp [heq], by simp [heq]⟩⟩

/-- Witness for C2: the one-sample state with base DTS 0 and a keyframe at
DTS 90000 (exactly 1000 ms at timescale 90000) crosses the boundary and
emits. -/
theorem claim_C2_witness :
    (cexMuxer.add_frame [] 90000 90000 3000 true).2.isSome = true :=
  (claim_C2 cexMuxer [] 90000 90000 3000 true (by decide) (by decide)
    (by decide) (by decide)).1.mpr ⟨by decide, rfl, by decide⟩

/-- Claim C4: every emitted fragment's `tfdt` box is version 1 (64-bit) and
carries a base decode time equal to the DTS of that fragment's first
sample.  Stated through the ghost DTS list: the invariant `InvBaseDts`
(one ghost entry per pending sample; `fragment_base_dts` is the head — the
DTS of the first pending sample, recorded exactly when a sample is appended
to an empty pending list) holds initially and is preserved by every
`add_frame`, and whenever `add_frame` or `flush` emits a fragment, the
8 bytes at fragment offset 92 are the big-endian 64-bit encoding of that
first-sample DTS. -/
theorem claim_C4 :
    (∀ (cfg : CmafConfig) (sps pps : List Nat) (w h : Nat),
        InvBaseDts (((CmafMuxer.new cfg).create_init_segment sps pps w h).1, [])) ∧
    (∀ (g : CmafMuxer × List Int) (f : FrameInput),
        InvBaseDts g → InvBaseDts (addFrameDts g f).1) ∧
    (∀ (g : CmafMuxer × List Int) (f : FrameInput) (frag : List Nat),
        InvBaseDts g → (addFrameDts g f).2 = some frag →
        g.2 ≠ [] ∧ g.1.fragment_base_dts = g.2.headI ∧
        (frag.drop 88).take 4 = [1, 0, 0, 0] ∧
        (frag.drop 92).take 8 = u64be (u64pat g.2.headI)) ∧
    (∀ (g : CmafMuxer × List Int) (frag : List Nat),
        InvBaseDts g → (flushDts g).2 = some frag →
        g.2 ≠ [] ∧ g.1.fragment_base_dts = g.2.headI ∧
        (frag.drop 88).take 4 = [1, 0, 0, 0] ∧
        (frag.drop 92).take 8 = u64be (u64pat g.2.headI)) := by
  have hne_of : ∀ (g : CmafMuxer × List Int), InvBaseDts g →
      g.1.pending_frames.isEmpty = false → g.2 ≠ [] := by
    intro g hg hemp
    have h1 := hg.1
    rcases g2 : g.2 with _ | _
    · rcases gp : g.1.pending_frames with _ | _
      · rw [gp] at hemp; simp at hemp
      · rw [gp, g2] at h1; simp at h1
    · simp
  refine ⟨?_, ?_, ?_, ?_⟩
  · intro cfg sps pps w h
    constructor
    · simp [CmafMuxer.create_init_segment, CmafMuxer.new]
    · intro h'; simp at h'
  · rintro ⟨m, ds⟩ f hg
    rcases hinit : m.initialized with _ | _
    · have heq := CmafMuxer.add_frame_uninit m f.nal_units f.pts f.dts
        f.duration f.is_keyframe hinit
      simpa [addFrameDts, CmafMuxer.add_frame_in, heq, hinit] using hg
    · rcases hsf : CmafMuxer.should_flush_calc m f.dts f.is_keyframe with _ | _
      · have heq := CmafMuxer.add_frame_noflush_case m f.nal_units f.pts f.dts
          f.duration f.is_keyframe hinit hsf
        rcases hemp : m.pending_frames.isEmpty with _ | _
        · -- non-empty pending: base unchanged, ds grows
          have hds : ds ≠ [] := hne_of (m, ds) hg hemp
          constructor
          · simp [addFrameDts, CmafMuxer.add_frame_in, heq, hinit, hemp, hg.1]
          · intro _
            simp [addFrameDts, CmafMuxer.add_frame_in, heq, hinit, hemp]
            rcases ds with _ | ⟨d, ds'⟩
            · exact absurd rfl hds
            · simpa using hg.2 (by simp)
        · -- empty pending: base set to dts, ds becomes [dts]
          have hds : ds = [] := by
            have h1 := hg.1
            rcases gp : m.pending_frames with _ | _
            · rw [gp] at h1; rcases ds with _ | _
              · rfl
              · simp at h1
            · rw [gp] at hemp; simp at hemp
          constructor
          · simp [addFrameDts, CmafMuxer.add_frame_in, heq, hinit, hemp, hds, hg.1]
          · intro _
            simp [addFrameDts, CmafMuxer.add_frame_in, heq, hinit, hemp, hds]
      · have heq := CmafMuxer.add_frame_flush_case m f.nal_units f.pts f.dts
          f.duration f.is_keyframe hinit hsf
        constructor
        · simp [addFrameDts, CmafMuxer.add_frame_in, heq, hinit]
        · intro _
          simp [addFrameDts, CmafMuxer.add_frame_in, heq, hinit]
  · rintro ⟨m, ds⟩ f frag hg hout
    rcases hinit : m.initialized with _ | _
    · have heq := CmafMuxer.add_frame_uninit m f.nal_units f.pts f.dts
        f.duration f.is_keyframe hinit
      simp [addFrameDts, CmafMuxer.add_frame_in, heq] at hout
    · rcases hsf : CmafMuxer.should_flush_calc m f.dts f.is_keyframe with _ | _
      · have heq := CmafMuxer.add_frame_noflush_case m f.nal_units f.pts f.dts
          f.duration f.is_keyframe hinit hsf
        simp [addFrameDts, CmafMuxer.add_frame_in, heq] at hout
      · have heq := CmafMuxer.add_frame_flush_case m f.nal_units f.pts f.dts
          f.duration f.is_keyframe hinit hsf
        have hemp : m.pending_frames.isEmpty = false := by
          rcases h : m.pending_frames.isEmpty with _ | _
          · rfl
          · rw [CmafMuxer.should_flush_of_empty m f.dts f.is_keyframe h] at hsf
            exact absurd hsf (by simp)
        have hds : ds ≠ [] := hne_of (m, ds) hg hemp
        have hfrag : frag = (CmafMuxer.flush_fragment m).1 := by
          simp [addFrameDts, CmafMuxer.add_frame_in, heq] at hout
          exact hout.symm
        have hbase : m.fragment_base_dts = ds.headI := hg.2 hds
        refine ⟨hds, hbase, ?_, ?_⟩
        · rw [hfrag]; exact CmafMuxer.tfdt_version_eq m
        · rw [hfrag, CmafMuxer.tfdt_field_eq m, hbase]
  · rintro ⟨m, ds⟩ frag hg hout
    rcases hemp : m.pending_frames.isEmpty with _ | _
    · have heq := CmafMuxer.flush_nonempty m hemp
      have hds : ds ≠ [] := hne_of (m, ds) hg hemp
      have hfrag : frag = (CmafMuxer.flush_fragment m).1 := by
        simp [flushDts, heq] at hout
        exact hout.symm
      have hbase : m.fragment_base_dts = ds.headI := hg.2 hds
      refine ⟨hds, hbase, ?_, ?_⟩
      · rw [hfrag]; exact CmafMuxer.tfdt_version_eq m
      · rw [hfrag, CmafMuxer.tfdt_field_eq m, hbase]
    · have heq := CmafMuxer.flush_empty m hemp
      simp [flushDts, heq] at hout


set_option maxRecDepth 10000 in
/-- Witness for C4 at the one-sample state (first-sample DTS 0), flushed by
a keyframe at DTS 90000. -/
theorem claim_C4_witness :
    ((CmafMuxer.flush_fragment cexMuxer).1.drop 92).take 8
      = u64be (u64pat (([0] : List Int).headI)) :=
  (claim_C4.2.2.1 (cexMuxer, ([0] : List Int)) ⟨[], 90000, 90000, 3000, true⟩
    (CmafMuxer.flush_fragment cexMuxer).1
    ⟨by decide, fun _ => by decide⟩ (by decide)).2.2.2

lemma stepOp_none_seq (m : CmafMuxer) (op : MuxOp) (m1 : CmafMuxer)
    (h : stepOp m op = (m1, none)) :
    m1.sequence_number = m.sequence_number := by
  rcases op with f | _
  · rcases hinit : m.initialized with _ | _
    · have heq := CmafMuxer.add_frame_uninit m f.nal_units f.pts f.dts
        f.duration f.is_keyframe hinit
      simp [stepOp, CmafMuxer.add_frame_in, heq] at h
      simp [← h]
    · rcases hsf : CmafMuxer.should_flush_calc m f.dts f.is_keyframe with _ | _
      · have heq := CmafMuxer.add_frame_noflush_case m f.nal_units f.pts f.dts
          f.duration f.is_keyframe hinit hsf
        simp [stepOp, CmafMuxer.add_frame_in, heq] at h
        simp [← h]
      · have heq := CmafMuxer.add_frame_flush_case m f.nal_units f.pts f.dts
          f.duration f.is_keyframe hinit hsf
        simp [stepOp, CmafMuxer.add_frame_in, heq] at h
  · rcases hemp : m.pending_frames.isEmpty with _ | _
    · have heq := CmafMuxer.flush_nonempty m hemp
      simp [stepOp, heq] at h
    · have heq := CmafMuxer.flush_empty m hemp
      simp [stepOp, heq] at h
      simp [← h]

lemma stepOp_some_seq (m : CmafMuxer) (op : MuxOp) (m1 : CmafMuxer)
    (frag : List Nat) (h : stepOp m op = (m1, some frag)) :
    m1.sequence_number = m.sequence_number + 1 ∧
    (frag.drop 52).take 4 = u32be m.sequence_number := by
  rcases op with f | _
  · rcases hinit : m.initialized with _ | _
    · have heq := CmafMuxer.add_frame_uninit m f.nal_units f.pts f.dts
        f.duration f.is_keyframe hinit
      simp [stepOp, CmafMuxer.add_frame_in, heq] at h
    · rcases hsf : CmafMuxer.should_flush_calc m f.dts f.is_keyframe with _ | _
      · have heq := CmafMuxer.add_frame_noflush_case m f.nal_units f.pts f.dts
          f.duration f.is_keyframe hinit hsf
        simp [stepOp, CmafMuxer.add_frame_in, heq] at h
      · have heq := CmafMuxer.add_frame_flush_case m f.nal_units f.pts f.dts
          f.duration f.is_keyframe hinit hsf
        simp [stepOp, CmafMuxer.add_frame_in, heq] at h
        refine ⟨by simp [← h.1], ?_⟩
        rw [← h.2]
        exact CmafMuxer.seq_field_eq m
  · rcases hemp : m.pending_frames.isEmpty with _ | _
    · have heq := CmafMuxer.flush_nonempty m hemp
      simp [stepOp, heq] at h
      refine ⟨by simp [CmafMuxer.flush_fragment, ← h.1], ?_⟩
      rw [← h.2]
      exact CmafMuxer.seq_field_eq m
    · have heq := CmafMuxer.flush_empty m hemp
      simp [stepOp, heq] at h

lemma runOps_seq (ops : List MuxOp) : ∀ (m : CmafMuxer),
    (runOps m ops).1.sequence_number
        = m.sequence_number + (runOps m ops).2.length ∧
    ∀ k, k < (runOps m ops).2.length →
      (((runOps m ops).2.getD k []).drop 52).take 4
        = u32be (m.sequence_number + k) := by
  induction ops with
  | nil => intro m; simp [runOps]
  | cons op rest ih =>
    intro m
    rcases hstep : stepOp m op with ⟨m1, out⟩
    have hrun : runOps m (op :: rest)
        = ((runOps m1 rest).1, out.toList ++ (runOps m1 rest).2) := by
      simp [runOps, hstep]
    rcases out with _ | frag
    · have hseq := stepOp_none_seq m op m1 hstep
      constructor
      · rw [hrun]
        simp [(ih m1).1, hseq]
      · intro k hk
        rw [hrun] at hk ⊢
        simp only [Option.toList_none, List.nil_append] at hk ⊢
        rw [(ih m1).2 k hk, hseq]
    · obtain ⟨hseq, hfield⟩ := stepOp_some_seq m op m1 frag hstep
      constructor
      · rw [hrun]
        simp [(ih m1).1, hseq]
        omega
      · intro k hk
        rw [hrun]
        simp only [Option.toList_some, List.singleton_append]
        rcases k with _ | k
        · simpa using hfield
        · rw [List.getD_cons_succ]
          rw [hrun] at hk
          simp only [Option.toList_some, List.singleton_append, List.length_cons] at hk
          rw [(ih m1).2 k (by omega), hseq]
          congr 1
          omega

/-- Claim C6: `sequence_number` starts at 1 on construction; an operation
that emits no fragment leaves it unchanged; an operation that emits a
fragment increments it by exactly 1, and the emitted fragment's `mfhd`
sequence-number field (bytes 52-55) carries the value current at emission
time; hence over any run the counter equals 1 plus the number of emitted
fragments, and from a freshly initialized muxer the k-th emitted fragment
(1-indexed) carries sequence number k. -/
theorem claim_C6 :
    (∀ cfg : CmafConfig, (CmafMuxer.new cfg).sequence_number = 1) ∧
    (∀ (m : CmafMuxer) (op : MuxOp) (m1 : CmafMuxer),
        stepOp m op = (m1, none) → m1.sequence_number = m.sequence_number) ∧
    (∀ (m : CmafMuxer) (op : MuxOp) (m1 : CmafMuxer) (frag : List Nat),
        stepOp m op = (m1, some frag) →
        m1.sequence_number = m.sequence_number + 1 ∧
        (frag.drop 52).take 4 = u32be m.sequence_number) ∧
    (∀ (m : CmafMuxer) (ops : List MuxOp),
        (runOps m ops).1.sequence_number
          = m.sequence_number + (runOps m ops).2.length) ∧
    (∀ (cfg : CmafConfig) (sps pps : List Nat) (w h : Nat) (ops : List MuxOp)
        (k : Nat),
        k < (runOps ((CmafMuxer.new cfg).create_init_segment sps pps w h).1 ops).2.length →
        (((runOps ((CmafMuxer.new cfg).create_init_segment sps pps w h).1 ops).2.getD k []).drop 52).take 4
          = u32be (1 + k)) :=
  ⟨fun _ => rfl, stepOp_none_seq, stepOp_some_seq,
   fun m ops => (runOps_seq ops m).1,
   fun cfg sps pps w h ops k hk =>
     (runOps_seq ops ((CmafMuxer.new cfg).create_init_segment sps pps w h).1).2 k hk⟩

set_option maxRecDepth 10000 in
/-- Witness for C6: a two-operation run (one keyframe, one flush) emits one
fragment whose sequence-number field reads 1. -/
theorem claim_C6_witness :
    (((runOps (((CmafMuxer.new ⟨1000, 90000⟩).create_init_segment scSps scPps 1280 720).1)
        [MuxOp.frame ⟨[⟨[0x65, 0], 5⟩], 0, 0, 3000, true⟩, MuxOp.flushOp]).2.getD 0 []).drop 52).take 4
      = u32be (1 + 0) :=
  claim_C6.2.2.2.2 ⟨1000, 90000⟩ scSps scPps 1280 720
    [MuxOp.frame ⟨[⟨[0x65, 0], 5⟩], 0, 0, 3000, true⟩, MuxOp.flushOp] 0 (by decide)

lemma scanTopBoxes_nil : scanTopBoxes [] = some [] := by
  rw [scanTopBoxes]
  simp

lemma scanTopBoxes_cons (b rest : List Nat) (h8 : 8 ≤ b.length)
    (hlt : b.length < 2^32) (hhd : readU32At (b ++ rest) 0 = b.length) :
    scanTopBoxes (b ++ rest)
      = (scanTopBoxes rest).map (fun l => (b.length, (b.drop 4).take 4) :: l) := by
  rw [scanTopBoxes]
  have hne : (b ++ rest).isEmpty = false := by
    rcases b with _ | _
    · simp at h8
    · simp
  have hlen : 8 ≤ (b ++ rest).length := by simp; omega
  have hguard : 8 ≤ readU32At (b ++ rest) 0 ∧ readU32At (b ++ rest) 0 ≤ (b ++ rest).length := by
    rw [hhd]; simp; omega
  have hdrop : (b ++ rest).drop (readU32At (b ++ rest) 0) = rest := by
    rw [hhd]; exact List.drop_left b rest
  have htag : ((b ++ rest).drop 4).take 4 = (b.drop 4).take 4 := by
    rw [List.drop_append_of_le_length (by omega),
      List.take_append_of_le_length (by simp; omega)]
  simp only [hne, Bool.false_eq_true, if_false, dif_pos hlen, dif_pos hguard,
    hdrop, htag, hhd]
  rcases hscan : scanTopBoxes rest with _ | l <;> simp [hscan, h8]

lemma boxSizeOk_writers (m : CmafMuxer) (hs : m.sps.length ≤ 2^16)
    (hp : m.pps.length ≤ 2^16) :
    boxSizeOk CmafMuxer.write_ftyp ∧
    boxSizeOk (CmafMuxer.write_mvhd m) ∧
    boxSizeOk (CmafMuxer.write_tkhd m) ∧
    boxSizeOk (CmafMuxer.write_mdhd m) ∧
    boxSizeOk CmafMuxer.write_hdlr ∧
    boxSizeOk CmafMuxer.write_vmhd ∧
    boxSizeOk CmafMuxer.write_dinf ∧
    boxSizeOk (CmafMuxer.write_dinf.drop 8) ∧
    boxSizeOk ((CmafMuxer.write_dinf.drop 24).take 12) ∧
    boxSizeOk (CmafMuxer.write_avcc m) ∧
    boxSizeOk (CmafMuxer.write_avc1 m) ∧
    boxSizeOk (CmafMuxer.write_stsd m) ∧
    boxSizeOk CmafMuxer.write_empty_stts ∧
    boxSizeOk CmafMuxer.write_empty_stsc ∧
    boxSizeOk CmafMuxer.write_empty_stsz ∧
    boxSizeOk CmafMuxer.write_empty_stco ∧
    boxSizeOk (CmafMuxer.write_stbl m) ∧
    boxSizeOk (CmafMuxer.write_minf m) ∧
    boxSizeOk (CmafMuxer.write_mdia m) ∧
    boxSizeOk (CmafMuxer.write_trak m) ∧
    boxSizeOk (CmafMuxer.write_trex m) ∧
    boxSizeOk (CmafMuxer.write_mvex m) ∧
    boxSizeOk (CmafMuxer.write_moov m) := by
  refine ⟨by simp only [boxSizeOk]; decide, ?_, ?_, ?_,
    by simp only [boxSizeOk]; decide, by simp only [boxSizeOk]; decide,
    by simp only [boxSizeOk]; decide, by simp only [boxSizeOk]; decide,
    by simp only [boxSizeOk]; decide, ?_, ?_, ?_,
    by simp only [boxSizeOk]; decide, by simp only [boxSizeOk]; decide,
    by simp only [boxSizeOk]; decide, by simp only [boxSizeOk]; decide,
    ?_, ?_, ?_, ?_, ?_, ?_, ?_⟩
  all_goals apply boxSizeOk_mk
  all_goals first
    | decide
    | (simp; omega)
    | (split_ifs <;> simp <;> omega)
    | simp

/-- Claim C5: for every configuration, parameter-set blobs of valid size
(at most `2^16` bytes, the capacity of their 2-byte length prefixes) and
dimensions, the `create_init_segment` output starts with the 40-byte `ftyp`
box, scans as exactly two top-level boxes — `ftyp` then a single `moov` —
whose declared sizes tile the buffer exactly (no gaps, no overlap), the two
declared sizes sum to the buffer length, and every box writer emits a box
whose declared 32-bit size equals its serialized length (including the
nested `dref` box and its `url ` entry inside `dinf`). -/
theorem claim_C5 (cfg : CmafConfig) (sps pps : List Nat) (w h : Nat)
    (hs : sps.length ≤ 2^16) (hp : pps.length ≤ 2^16) :
    (((CmafMuxer.new cfg).create_init_segment sps pps w h).2.take 4 = u32be 40 ∧
     ((((CmafMuxer.new cfg).create_init_segment sps pps w h).2.drop 4).take 4
        = tagBytes "ftyp")) ∧
    scanTopBoxes ((CmafMuxer.new cfg).create_init_segment sps pps w h).2
      = some [(40, tagBytes "ftyp"),
              (602 + sps.length + pps.length, tagBytes "moov")] ∧
    40 + (602 + sps.length + pps.length)
      = ((CmafMuxer.new cfg).create_init_segment sps pps w h).2.length ∧
    (∀ m : CmafMuxer, m.sps.length ≤ 2^16 → m.pps.length ≤ 2^16 →
      boxSizeOk CmafMuxer.write_ftyp ∧
      boxSizeOk (CmafMuxer.write_mvhd m) ∧
      boxSizeOk (CmafMuxer.write_tkhd m) ∧
      boxSizeOk (CmafMuxer.write_mdhd m) ∧
      boxSizeOk CmafMuxer.write_hdlr ∧
      boxSizeOk CmafMuxer.write_vmhd ∧
      boxSizeOk CmafMuxer.write_dinf ∧
      boxSizeOk (CmafMuxer.write_dinf.drop 8) ∧
      boxSizeOk ((CmafMuxer.write_dinf.drop 24).take 12) ∧
      boxSizeOk (CmafMuxer.write_avcc m) ∧
      boxSizeOk (CmafMuxer.write_avc1 m) ∧
      boxSizeOk (CmafMuxer.write_stsd m) ∧
      boxSizeOk CmafMuxer.write_empty_stts ∧
      boxSizeOk CmafMuxer.write_empty_stsc ∧
      boxSizeOk CmafMuxer.write_empty_stsz ∧
      boxSizeOk CmafMuxer.write_empty_stco ∧
      boxSizeOk (CmafMuxer.write_stbl m) ∧
      boxSizeOk (CmafMuxer.write_minf m) ∧
      boxSizeOk (CmafMuxer.write_mdia m) ∧
      boxSizeOk (CmafMuxer.write_trak m) ∧
      boxSizeOk (CmafMuxer.write_trex m) ∧
      boxSizeOk (CmafMuxer.write_mvex m) ∧
      boxSizeOk (CmafMuxer.write_moov m)) := by
  have hminit : (((CmafMuxer.new cfg).create_init_segment sps pps w h).1).sps = sps := rfl
  have hpps : (((CmafMuxer.new cfg).create_init_segment sps pps w h).1).pps = pps := rfl
  have hmoov : boxSizeOk
      (CmafMuxer.write_moov (((CmafMuxer.new cfg).create_init_segment sps pps w h).1)) :=
    (boxSizeOk_writers _ (by rw [hminit]; exact hs) (by exact hp)).2.2.2.2.2.2.2.2.2.2.2.2.2.2.2.2.2.2.2.2.2.2
  have hfm : (((CmafMuxer.new cfg).create_init_segment sps pps w h).2)
      = CmafMuxer.write_ftyp
        ++ CmafMuxer.write_moov (((CmafMuxer.new cfg).create_init_segment sps pps w h).1) := rfl
  refine ⟨⟨rfl, rfl⟩, ?_, ?_, boxSizeOk_writers⟩
  · rw [hfm]
    rw [scanTopBoxes_cons CmafMuxer.write_ftyp _ (by simp) (by simp) rfl]
    rw [show CmafMuxer.write_moov (((CmafMuxer.new cfg).create_init_segment sps pps w h).1)
          = CmafMuxer.write_moov (((CmafMuxer.new cfg).create_init_segment sps pps w h).1) ++ []
        from (List.append_nil _).symm]
    rw [scanTopBoxes_cons _ [] (by simp; omega)
      (by simp [hminit, show (((CmafMuxer.new cfg).create_init_segment sps pps w h).1).pps
          = pps from rfl]; omega)
      (by rw [List.append_nil]; exact hmoov)]
    rw [scanTopBoxes_nil]
    simp [show ((CmafMuxer.write_ftyp.drop 4).take 4) = tagBytes "ftyp" from rfl,
      show (((CmafMuxer.write_moov
          (((CmafMuxer.new cfg).create_init_segment sps pps w h).1)).drop 4).take 4)
        = tagBytes "moov" from rfl, hminit, hpps]
  · rw [hfm]
    simp [hminit, hpps]


/-- Witness for C5 at the scenario parameter sets and 1280x720. -/
theorem claim_C5_witness :
    scanTopBoxes ((CmafMuxer.new ⟨1000, 90000⟩).create_init_segment scSps scPps 1280 720).2
      = some [(40, tagBytes "ftyp"), (602 + scSps.length + scPps.length, tagBytes "moov")] :=
  (claim_C5 ⟨1000, 90000⟩ scSps scPps 1280 720 (by decide) (by decide)).2.1
